import Mathlib

/-!
# Verification of the KubotaBackend similarity-search and recommendation engine

Shallow embedding of the core logic of `src/ai/ticket_processor_adapted.py`
(`AdaptedTicketProcessor`: `generate_openai_embedding`, `find_similar_issues`
with its `run_query` cascade, `extract_recommended_parts`) and of
`src/ai/langgraph_agent.py` (`KubotaPartsAIAgent`: the seven workflow nodes,
`process_issue`).

Modelling conventions:
* Python floats are modelled as exact rationals (`ℚ`); `round(x, 3)` is
  modelled by round-half-to-even on thousandths, matching Python's rounding
  mode on exact values.
* External collaborators (the OpenAI embedding endpoint, the PostgreSQL
  store, the symptom-suggestion service, LangGraph's orchestration) are
  modelled as oracles: the SQL query issued by `run_query` is executed
  against an abstract table of rows whose per-field similarity scores are
  oracle data, with the SQL's `WHERE` / `ORDER BY ... DESC` / `LIMIT`
  clauses executed faithfully on that table.
* Call-count instrumentation (which store queries were issued, how many
  remote embedding calls were made) is threaded through the definitions so
  that fallback-policy claims can be stated.
-/

/-- Round-half-to-even of a rational to an integer (Python's rounding mode). -/
def roundHalfEven (q : ℚ) : ℤ :=
  if q - ⌊q⌋ < 1/2 then ⌊q⌋
  else if 1/2 < q - ⌊q⌋ then ⌊q⌋ + 1
  else if 2 ∣ ⌊q⌋ then ⌊q⌋ else ⌊q⌋ + 1

/-- Python's `round(x, 3)`: round to 3 decimal places, half to even. -/
def round3 (q : ℚ) : ℚ := (roundHalfEven (q * 1000) : ℚ) / 1000

/-- Split a character list at commas: model of Python `str.split(',')`. -/
def splitOnComma : List Char → List (List Char)
  | [] => [[]]
  | c :: rest =>
    match splitOnComma rest, c with
    | r, ',' => [] :: r
    | [], _ => [[c]]
    | t :: r, _ => (c :: t) :: r

/-- Strip leading and trailing whitespace: model of Python `str.strip()`. -/
def stripChars (l : List Char) : List Char :=
  ((l.dropWhile Char.isWhitespace).reverse.dropWhile Char.isWhitespace).reverse

/-- Character-wise lowercasing: model of Python `str.lower()`. -/
def lowerChars (l : List Char) : List Char := l.map Char.toLower

/-- The part tokens contributed by one case's `partname` field, per
`AdaptedTicketProcessor.extract_recommended_parts`: if the field is falsy
contribute nothing; otherwise split on commas, strip each token, and keep
the tokens that are non-empty and not the literal `"nan"` (case-insensitive). -/
def caseTokens (partname : String) : List String :=
  if partname = "" then []
  else ((splitOnComma partname.data).map stripChars).filterMap (fun t =>
    if t ≠ [] ∧ lowerChars t ≠ "nan".data then some (String.mk t) else none)

/-- One increment of the `parts_frequency` dict:
`parts_frequency[part] = parts_frequency.get(part, 0) + 1`.  Python dicts
keep insertion order and update values in place, which this associative-list
update mirrors exactly. -/
def bump (m : List (String × Nat)) (p : String) : List (String × Nat) :=
  match m with
  | [] => [(p, 1)]
  | (q, n) :: rest => if q = p then (q, n + 1) :: rest else (q, n) :: bump rest p

/-- A similar case as consumed by the recommender and the pipeline: the
`partname` field and the `similarity_score` field of a search-result row. -/
structure KCase where
  partname : String
  similarity_score : ℚ
deriving DecidableEq, Repr

/-- The `parts_frequency` dict built by `extract_recommended_parts`. -/
def parts_frequency (cases : List KCase) : List (String × Nat) :=
  cases.foldl (fun m c => (caseTokens c.partname).foldl bump m) []

/-- One entry of the list returned by `extract_recommended_parts`. -/
structure PartRecommendation where
  part_number : String
  frequency : Nat
  confidence : ℚ
  recommended_from : String
deriving DecidableEq, Repr

/-- Descending-frequency order used to sort recommendations. -/
def freqGe (a b : String × Nat) : Prop := b.2 ≤ a.2

instance : DecidableRel freqGe := fun a b => inferInstanceAs (Decidable (b.2 ≤ a.2))
instance : IsTotal (String × Nat) freqGe := ⟨fun a b => Nat.le_total b.2 a.2⟩
instance : IsTrans (String × Nat) freqGe := ⟨fun _ _ _ h1 h2 => Nat.le_trans h2 h1⟩

/-- Build one recommendation record from a `(part, frequency)` pair, with
`confidence = round(frequency / total_cases if total_cases else 0, 3)` and the
`"{frequency}/{total_cases} similar cases"` justification string. -/
def mkRecommendation (total : Nat) (e : String × Nat) : PartRecommendation :=
  { part_number := e.1
    frequency := e.2
    confidence := round3 (if total = 0 then 0 else (e.2 : ℚ) / total)
    recommended_from := toString e.2 ++ "/" ++ toString total ++ " similar cases" }

/-- `AdaptedTicketProcessor.extract_recommended_parts`: accumulate per-token
frequencies over all cases, sort by frequency descending (Python's stable
sort: ties keep dict insertion order), build the recommendation records and
truncate to the top 10. -/
def extract_recommended_parts (similar_cases : List KCase) : List PartRecommendation :=
  let total_cases := similar_cases.length
  let sorted := (parts_frequency similar_cases).insertionSort freqGe
  (sorted.map (mkRecommendation total_cases)).take 10

/-! ## Hybrid search: `generate_openai_embedding`, `run_query`, the fallback cascade -/

/-- `AdaptedTicketProcessor.generate_openai_embedding`, with remote-call
instrumentation: on falsy (empty) text return the 1536-dimensional zero
vector without calling the remote model (second component counts remote
calls); otherwise return the remote model's embedding. -/
def generate_openai_embedding (remote : String → List ℚ) (text : String) :
    List ℚ × Nat :=
  if text = "" then (List.replicate 1536 0, 0) else (remote text, 1)

/-- A row of the `kubota_parts` table as seen by `run_query`: the fields the
SQL touches.  The two per-field similarity subscores
`1 - (embedding_*_vector <=> query_embedding)` are oracle data attached to the
row (they depend only on the stored vectors and the fixed query embedding of
the call). -/
structure KRow where
  claimid : Nat
  seriesname : String
  subassembly : String
  partname : String
  hasSymVec : Bool
  hasDefVec : Bool
  symScore : ℚ
  defScore : ℚ
deriving DecidableEq, Repr

/-- The SQL similarity expression:
`alpha * (1 - sym_dist) + (1 - alpha) * (1 - def_dist)`. -/
def rowScore (alpha_value : ℚ) (r : KRow) : ℚ :=
  alpha_value * r.symScore + (1 - alpha_value) * r.defScore

/-- Case-insensitive substring test: model of SQL `x ILIKE '%t%'`. -/
def ilikeContains (hay pat : String) : Bool :=
  decide (lowerChars pat.data <:+: lowerChars hay.data)

/-- The `seriesname ILIKE %s OR subassembly ILIKE %s` filter. -/
def typeFilterMatch (t : String) (r : KRow) : Bool :=
  ilikeContains r.seriesname t || ilikeContains r.subassembly t

/-- Python truthiness of the optional `issue_type` argument. -/
def optTruthy : Option String → Bool
  | some t => decide (t ≠ "")
  | none => false

/-- Descending-score order on result rows (SQL `ORDER BY similarity_score DESC`). -/
def caseGe (a b : KCase) : Prop := b.similarity_score ≤ a.similarity_score

instance : DecidableRel caseGe :=
  fun a b => inferInstanceAs (Decidable (b.similarity_score ≤ a.similarity_score))
instance : IsTotal KCase caseGe := ⟨fun a b => le_total b.similarity_score a.similarity_score⟩
instance : IsTrans KCase caseGe := ⟨fun _ _ _ h1 h2 => le_trans h2 h1⟩

/-- The inner `run_query` of `find_similar_issues`: keep rows with both
embedding vectors present, apply the type filter when `with_type` is set and
an issue type was given, compute the weighted similarity score, order by
score descending and keep the top 20 candidates. -/
def run_query (table : List KRow) (issue_type : Option String)
    (alpha_value : ℚ) (with_type : Bool) : List KCase :=
  let base := table.filter (fun r => r.hasSymVec && r.hasDefVec)
  let base := if with_type && optTruthy issue_type then
      base.filter (typeFilterMatch (issue_type.getD ""))
    else base
  let scored := base.map (fun r => (⟨r.partname, rowScore alpha_value r⟩ : KCase))
  (scored.insertionSort caseGe).take 20

/-- The cascading fallback of `find_similar_issues`, with instrumentation:
the first component is the row set the cascade settles on, the second the
list of `(alpha_value, with_type)` arguments of the store queries actually
issued, in order. -/
def cascade (table : List KRow) (issue_type : Option String) (alpha : ℚ) :
    List KCase × List (ℚ × Bool) :=
  if (run_query table issue_type alpha true).isEmpty then
    if (run_query table issue_type (1/2) true).isEmpty then
      if optTruthy issue_type then
        if (run_query table issue_type alpha false).isEmpty then
          (run_query table issue_type (1/2) false,
           [(alpha, true), (1/2, true), (alpha, false), (1/2, false)])
        else
          (run_query table issue_type alpha false,
           [(alpha, true), (1/2, true), (alpha, false)])
      else
        (run_query table issue_type (1/2) false,
         [(alpha, true), (1/2, true), (1/2, false)])
    else
      (run_query table issue_type (1/2) true, [(alpha, true), (1/2, true)])
  else
    (run_query table issue_type alpha true, [(alpha, true)])

/-- Outcome of a `find_similar_issues` call, with instrumentation. -/
structure SearchOutcome where
  results : List KCase
  store_calls : List (ℚ × Bool)
  remote_calls : Nat
deriving DecidableEq, Repr

/-- `AdaptedTicketProcessor.find_similar_issues`: embed the issue text,
return the empty result set when the embedding list is empty, otherwise run
the fallback cascade, filter the settled rows by `similarity_score >=
min_cutoff` and return the first `limit` of them. -/
def find_similar_issues (remote : String → List ℚ) (table : List KRow)
    (issue_text : String) (issue_type : Option String) (limit : Nat)
    (alpha : ℚ) (min_cutoff : ℚ) : SearchOutcome :=
  let emb := generate_openai_embedding remote issue_text
  if emb.1.isEmpty then ⟨[], [], emb.2⟩
  else
    let c := cascade table issue_type alpha
    ⟨(c.1.filter (fun r => decide (min_cutoff ≤ r.similarity_score))).take limit,
     c.2, emb.2⟩

/-- The attempt schedule described by the spec's cascading fallback policy:
primary weight with the type filter, `0.5` with the type filter, then (only
when a type hint was given) primary weight without the filter, then `0.5`
without the filter.  (Spec-side definition, for the refinement claim C1.) -/
def attemptSchedule (issue_type : Option String) (alpha : ℚ) : List (ℚ × Bool) :=
  [(alpha, true), (1/2, true)] ++
    (if optTruthy issue_type then [(alpha, false)] else []) ++ [(1/2, false)]

/-- Spec-side "first non-empty attempt wins" evaluator over an attempt
schedule: issue the queries in order, stop at the first non-empty row set;
the instrumentation lists the attempts actually issued.  (Spec-side
definition, for the refinement claim C1.) -/
def firstNonEmpty (runq : ℚ × Bool → List KCase) :
    List (ℚ × Bool) → List KCase × List (ℚ × Bool)
  | [] => ([], [])
  | a :: rest =>
    let r := runq a
    if r.isEmpty then
      let p := firstNonEmpty runq rest
      (p.1, a :: p.2)
    else (r, [a])

/-! ## The LangGraph pipeline (`KubotaPartsAIAgent`)

Each workflow node wraps its body in `try/except`; the body's single
fallible external operation is modelled by an oracle field of
`PipelineEnv` (`Except.error e` models that operation raising `e`; for the
pure stages 4–7 an `Option String` models a hypothetical internal
exception).  State mutations the Python code performs before the fallible
operation persist on the failure path, exactly as they do under CPython
exception semantics.  The f-string numeric format specifiers (`:.2f`,
`:.1%`) in log/explanation text are abstracted by exact rational rendering. -/

/-- One suggestion dict returned by `SymptomSuggestionService`; the node reads
`symptom.get("technical_symptom", symptom.get("symptom", ""))`. -/
structure TechSymptom where
  technical_symptom : Option String
  symptom : Option String
deriving DecidableEq, Repr

/-- `symptom.get("technical_symptom", symptom.get("symptom", ""))`. -/
def TechSymptom.extractText (t : TechSymptom) : String :=
  t.technical_symptom.getD (t.symptom.getD "")

/-- The `confidence_scores` entry of the evaluator node. -/
structure ConfidenceResult where
  case_similarity : ℚ
  parts_confidence : ℚ
  overall_confidence : ℚ
  quality : String
deriving DecidableEq, Repr

/-- The `confidence_scores` dict on the state: initially `{}`, then either
the evaluator's result or `{"error": msg}` from the node's except path. -/
inductive ConfScores where
  | empty : ConfScores
  | result (r : ConfidenceResult) : ConfScores
  | err (msg : String) : ConfScores
deriving DecidableEq, Repr

/-- `state.get("confidence_scores", {}).get("overall_confidence", 0)` (the
`float(...)` conversion in the formatter is the identity on these values). -/
def ConfScores.overallOf : ConfScores → ℚ
  | .result r => r.overall_confidence
  | _ => 0

/-- One mock stock record of the inventory checker. -/
structure StockInfo where
  part_number : String
  in_stock : Bool
  quantity : Nat
  estimated_cost : ℚ
deriving DecidableEq, Repr

/-- The `inventory_status` dict: initially `{}`, then the checker's dict or
`{"error": msg}` from its except path. -/
inductive InvStatus where
  | empty : InvStatus
  | status (available out_of_stock low_stock : List StockInfo)
      (total_estimated_cost : ℚ) : InvStatus
  | err (msg : String) : InvStatus
deriving DecidableEq, Repr

/-- Truthiness of `state.get("inventory_status", {}).get("out_of_stock_parts")`. -/
def InvStatus.hasOutOfStock : InvStatus → Bool
  | .status _ o _ _ => !o.isEmpty
  | _ => false

/-- One formatted entry of `recommended_parts` (stage 4 output). -/
structure FormattedPart where
  part_number : String
  confidence : ℚ
  frequency : Nat
  reasoning : String
deriving DecidableEq, Repr

/-- One entry of `final_recommendations` (stage 7 output). -/
structure FinalRec where
  part_number : String
  confidence : ℚ
  frequency : Nat
  reasoning : String
  priority : String
deriving DecidableEq, Repr

/-- Descending-confidence order used by the formatter's stable sort. -/
def confGe (a b : FinalRec) : Prop := b.confidence ≤ a.confidence

instance : DecidableRel confGe :=
  fun a b => inferInstanceAs (Decidable (b.confidence ≤ a.confidence))
instance : IsTotal FinalRec confGe := ⟨fun a b => le_total b.confidence a.confidence⟩
instance : IsTrans FinalRec confGe := ⟨fun _ _ _ h1 h2 => le_trans h2 h1⟩

/-- The `KubotaAIState` TypedDict threaded through the workflow. -/
structure KubotaAIState where
  user_issue : String
  machine_series : Option String
  user_id : Option Int
  ticket_id : Option Int
  processed_symptoms : List String
  embedding_vector : Option (List ℚ)
  similar_cases : List KCase
  recommended_parts : List FormattedPart
  confidence_scores : ConfScores
  inventory_status : InvStatus
  final_recommendations : List FinalRec
  explanation : String
  next_actions : List String
  workflow_stage : String
  processing_log : List String
  error_message : Option String
deriving DecidableEq, Repr

/-- Per-run outcomes of the external operations each node performs. -/
structure PipelineEnv where
  symptoms_out : Except String (List TechSymptom)
  embed_out : Except String (List ℚ)
  search_out : Except String (List KCase)
  fallback_search_out : Except String (List KCase)
  parts_exc : Option String
  inventory_exc : Option String
  confidence_exc : Option String
  formatter_exc : Option String

/-- Python `s[:100]`. -/
def takeChars (n : Nat) (s : String) : String := String.mk (s.data.take n)

/-- Node 1, `symptom_analyzer_node`. -/
def symptom_analyzer_node (env : PipelineEnv) (s0 : KubotaAIState) : KubotaAIState :=
  let s := { s0 with
    workflow_stage := "symptom_analysis"
    processing_log := s0.processing_log ++
      ["Starting symptom analysis: " ++ takeChars 100 s0.user_issue ++ "..."] }
  match env.symptoms_out with
  | .error e =>
    { s with error_message := some ("Symptom analysis failed: " ++ e)
             processed_symptoms := [s.user_issue] }
  | .ok tech =>
    let ps := tech.map TechSymptom.extractText
    let ps := if ps.isEmpty then [s.user_issue] else ps
    { s with processed_symptoms := ps
             processing_log := s.processing_log ++
               ["Generated " ++ toString ps.length ++ " processed symptoms"] }

/-- Node 2, `embedding_generator_node`. -/
def embedding_generator_node (env : PipelineEnv) (s0 : KubotaAIState) : KubotaAIState :=
  let s := { s0 with
    workflow_stage := "embedding_generation"
    processing_log := s0.processing_log ++
      ["Generating embeddings for symptom matching..."] }
  match env.embed_out with
  | .error e =>
    { s with error_message := some ("Embedding generation failed: " ++ e)
             embedding_vector := none }
  | .ok v =>
    { s with embedding_vector := some v
             processing_log := s.processing_log ++
               ["Generated " ++ toString v.length ++ "-dimensional embedding vector"] }

/-- Python falsiness of `state.get("embedding_vector")`. -/
def embFalsy : Option (List ℚ) → Bool
  | none => true
  | some v => v.isEmpty

/-- Node 3, `similarity_searcher_node`. -/
def similarity_searcher_node (env : PipelineEnv) (s0 : KubotaAIState) : KubotaAIState :=
  let s := { s0 with
    workflow_stage := "similarity_search"
    processing_log := s0.processing_log ++
      ["Searching for similar cases using vector similarity..."] }
  if embFalsy s.embedding_vector then
    let s := { s with processing_log := s.processing_log ++
      ["No embedding available, falling back to text search"] }
    match env.fallback_search_out with
    | .error e =>
      { s with error_message := some ("Similarity search failed: " ++ e)
               similar_cases := [] }
    | .ok cs =>
      { s with similar_cases := cs
               processing_log := s.processing_log ++
                 ["Found " ++ toString cs.length ++ " similar cases"] }
  else
    match env.search_out with
    | .error e =>
      { s with error_message := some ("Similarity search failed: " ++ e)
               similar_cases := [] }
    | .ok cs =>
      { s with similar_cases := cs
               processing_log := s.processing_log ++
                 ["Found " ++ toString cs.length ++ " similar cases"] }

/-- Node 4, `parts_recommender_node`; calls `extract_recommended_parts` and
reformats its entries (the `reasoning` lookup chain
`part.get("reasoning", part.get("recommendedfrom", "Historical data"))`
always falls through to `"Historical data"` because the recommendation dicts
carry neither key). -/
def parts_recommender_node (env : PipelineEnv) (s0 : KubotaAIState) : KubotaAIState :=
  let s := { s0 with
    workflow_stage := "parts_recommendation"
    processing_log := s0.processing_log ++
      ["Extracting parts recommendations from similar cases..."] }
  match env.parts_exc with
  | some e =>
    { s with error_message := some ("Parts recommendation failed: " ++ e)
             recommended_parts := [] }
  | none =>
    if s.similar_cases.isEmpty then { s with recommended_parts := [] }
    else
      let recs := extract_recommended_parts s.similar_cases
      let fp := recs.map (fun p =>
        (⟨p.part_number, p.confidence, p.frequency, "Historical data"⟩ : FormattedPart))
      { s with recommended_parts := fp
               processing_log := s.processing_log ++
                 ["Recommended " ++ toString fp.length ++ " parts"] }

/-- Node 5, `inventory_checker_node` (mock stock data: every part with a
non-empty part number is in stock, quantity 10, cost 45.50).  Its except
path records the error in `inventory_status`, not in `error_message`. -/
def inventory_checker_node (env : PipelineEnv) (s0 : KubotaAIState) : KubotaAIState :=
  let s := { s0 with
    workflow_stage := "inventory_check"
    processing_log := s0.processing_log ++ ["Checking inventory availability..."] }
  match env.inventory_exc with
  | some e => { s with inventory_status := .err e }
  | none =>
    let avail := (s.recommended_parts.filter (fun p => !(p.part_number == ""))).map
      (fun p => (⟨p.part_number, true, 10, 91/2⟩ : StockInfo))
    { s with inventory_status := .status avail [] [] ((91 : ℚ)/2 * avail.length)
             processing_log := s.processing_log ++
               ["Checked inventory for " ++ toString s.recommended_parts.length ++ " parts"] }

/-- The pure confidence evaluation of node 6: means (0.0 on empty lists),
the 0.4/0.6 blend, and the strict-threshold quality label. -/
def confidence_evaluate (cases : List KCase) (recs : List FormattedPart) :
    ConfidenceResult :=
  let cs := if cases.isEmpty then 0
    else (cases.map (fun c => c.similarity_score)).sum / cases.length
  let pc := if recs.isEmpty then 0
    else (recs.map (fun p => p.confidence)).sum / recs.length
  let overall := cs * (2/5) + pc * (3/5)
  { case_similarity := cs
    parts_confidence := pc
    overall_confidence := overall
    quality := if 4/5 < overall then "high"
      else if 3/5 < overall then "medium" else "low" }

/-- Node 6, `confidence_evaluator_node`.  Its except path records the error
in `confidence_scores`, not in `error_message`. -/
def confidence_evaluator_node (env : PipelineEnv) (s0 : KubotaAIState) : KubotaAIState :=
  let s := { s0 with
    workflow_stage := "confidence_evaluation"
    processing_log := s0.processing_log ++ ["Evaluating recommendation confidence..."] }
  match env.confidence_exc with
  | some e => { s with confidence_scores := .err e }
  | none =>
    let r := confidence_evaluate s.similar_cases s.recommended_parts
    { s with confidence_scores := .result r
             processing_log := s.processing_log ++
               ["Overall confidence: " ++ toString r.overall_confidence] }

/-- The per-part `priority` tag of the formatter:
`"high" if confidence > 0.8 else "medium" if confidence > 0.6 else "low"`. -/
def priorityOf (c : ℚ) : String :=
  if 4/5 < c then "high" else if 3/5 < c then "medium" else "low"

/-- The formatter's explanation text (numeric format specifiers abstracted). -/
def mkExplanation (user_issue : String) (case_count : Nat) (conf : ℚ)
    (rec_count : Nat) : String :=
  "AI Analysis Complete:\n\nIssue: " ++ user_issue ++
  "\nSimilar Cases Found: " ++ toString case_count ++
  "\nOverall Confidence: " ++ toString conf ++
  "\n\nBased on analysis of " ++ toString case_count ++
  " similar cases from your Kubota parts database,\nI have identified " ++
  toString rec_count ++ " recommended parts with\n" ++ toString conf ++
  " confidence level.\n\nThe recommendations are ranked by confidence score" ++
  " and frequency of use\nin similar repair scenarios."

/-- Node 7, `recommendation_formatter_node`. -/
def recommendation_formatter_node (env : PipelineEnv) (s0 : KubotaAIState) : KubotaAIState :=
  let s := { s0 with
    workflow_stage := "formatting"
    processing_log := s0.processing_log ++ ["Formatting final recommendations..."] }
  match env.formatter_exc with
  | some e => { s with error_message := some ("Formatting failed: " ++ e) }
  | none =>
    let final0 := s.recommended_parts.map (fun p =>
      (⟨p.part_number, p.confidence, p.frequency, p.reasoning,
        priorityOf p.confidence⟩ : FinalRec))
    let final := final0.insertionSort confGe
    let conf : ℚ := s.confidence_scores.overallOf
    let case_count := s.similar_cases.length
    let na := (if 4/5 < conf then ["Proceed with high-confidence recommendations"]
      else if 3/5 < conf then ["Review recommendations with technician"]
      else ["Gather more diagnostic information"]) ++
      (if s.inventory_status.hasOutOfStock then ["Order out-of-stock parts"] else [])
    { s with final_recommendations := final
             explanation := mkExplanation s.user_issue case_count conf final.length
             next_actions := na
             workflow_stage := "completed"
             processing_log := s.processing_log ++ ["Workflow completed successfully"] }

/-- The linear workflow: the seven nodes in their wired order. -/
def run_workflow (env : PipelineEnv) (s : KubotaAIState) : KubotaAIState :=
  recommendation_formatter_node env
    (confidence_evaluator_node env
      (inventory_checker_node env
        (parts_recommender_node env
          (similarity_searcher_node env
            (embedding_generator_node env
              (symptom_analyzer_node env s))))))

/-- The `initial_state` dict built by `process_issue`. -/
def initial_state (user_issue : String) (machine_series : Option String)
    (user_id ticket_id : Option Int) : KubotaAIState :=
  { user_issue := user_issue
    machine_series := machine_series
    user_id := user_id
    ticket_id := ticket_id
    processed_symptoms := []
    embedding_vector := none
    similar_cases := []
    recommended_parts := []
    confidence_scores := .empty
    inventory_status := .empty
    final_recommendations := []
    explanation := ""
    next_actions := []
    workflow_stage := "initialized"
    processing_log := []
    error_message := none }

/-- The response dict of `process_issue`.  The success and failure branches
return different key sets; keys present only on one branch are `Option`s. -/
structure ProcessResult where
  success : Bool
  user_issue : String
  final_recommendations : List FinalRec
  explanation : String
  embedding_used : Bool
  workflow_completed : Option Bool
  confidence_scores : Option ConfScores
  similar_cases_count : Option Nat
  inventory_status : Option InvStatus
  next_actions : Option (List String)
  processing_log : Option (List String)
  error_message : Option (Option String)
  error : Option String
deriving DecidableEq, Repr

/-- `KubotaPartsAIAgent.process_issue`: run the compiled workflow and return
the success-shaped response; `top_exc` models the rare case that the
top-level orchestration itself raises, which returns the failure-shaped
response. -/
def process_issue (env : PipelineEnv) (top_exc : Option String)
    (user_issue : String) (machine_series : Option String)
    (user_id ticket_id : Option Int) : ProcessResult :=
  match top_exc with
  | some e =>
    { success := false
      user_issue := user_issue
      final_recommendations := []
      explanation := "Workflow failed: " ++ e
      embedding_used := false
      workflow_completed := none
      confidence_scores := none
      similar_cases_count := none
      inventory_status := none
      next_actions := none
      processing_log := none
      error_message := none
      error := some e }
  | none =>
    let fs := run_workflow env (initial_state user_issue machine_series user_id ticket_id)
    { success := true
      user_issue := user_issue
      final_recommendations := fs.final_recommendations
      explanation := fs.explanation
      embedding_used := fs.embedding_vector.isSome
      workflow_completed := some true
      confidence_scores := some fs.confidence_scores
      similar_cases_count := some fs.similar_cases.length
      inventory_status := some fs.inventory_status
      next_actions := some fs.next_actions
      processing_log := some fs.processing_log
      error_message := some fs.error_message
      error := none }

/-! ## Auxiliary definitions for the theorems -/

/-- First-match lookup in a frequency list (Python dict lookup, default 0). -/
def getFreq (m : List (String × Nat)) (p : String) : Nat :=
  match m with
  | [] => 0
  | (q, n) :: rest => if q = p then n else getFreq rest p

/-- All part tokens contributed by a case list, in traversal order. -/
def allTokens (cases : List KCase) : List String :=
  cases.flatMap (fun c => caseTokens c.partname)

/-- A concrete store row used in witnesses: both embedding vectors present,
both similarity subscores 1. -/
def sampleRow : KRow :=
  ⟨101, "M7060", "HYDRAULIC", "7J065-85200", true, true, 1, 1⟩

/-- A concrete all-successful pipeline environment used in counterexamples:
one suggested symptom, a non-empty embedding, one similar case. -/
def demoEnv : PipelineEnv :=
  ⟨.ok [⟨some "hydraulic pressure loss", none⟩], .ok [1, 0],
   .ok [⟨"7J065-85200", 9/10⟩], .ok [], none, none, none, none⟩

/-- An all-successful pipeline environment with the given oracle values. -/
def envOk (tech : List TechSymptom) (v : List ℚ) (cs fcs : List KCase) : PipelineEnv :=
  ⟨.ok tech, .ok v, .ok cs, .ok fcs, none, none, none, none⟩

/-! ## Theorems -/

set_option maxRecDepth 4000 in
/-- C2: on the spec's end-to-end scenario — two cases with parts field
`"7J065-85200, 9L200-54321"` (scores 0.9 and 0.8) and one with
`"9L200-54321"` (score 0.7) — `extract_recommended_parts` returns
`9L200-54321` with frequency 3 and confidence 1.0 ranked above
`7J065-85200` with frequency 2 and confidence 0.667. -/
theorem claim_C2 : extract_recommended_parts
    [⟨"7J065-85200, 9L200-54321", 9/10⟩, ⟨"7J065-85200, 9L200-54321", 8/10⟩,
     ⟨"9L200-54321", 7/10⟩] =
    [⟨"9L200-54321", 3, 1, "3/3 similar cases"⟩,
     ⟨"7J065-85200", 2, 667/1000, "2/3 similar cases"⟩] := by
  with_unfolding_all decide

/-- C10: `process_issue` returns `success = true` whenever the workflow
yields a final state (its `error_message` key simply passes the final
state's error message through, so stage failures do not flip the flag);
`success = false` happens only on the top-level exception path, and there
`final_recommendations = []` and the explanation begins with
`"Workflow failed:"`. -/
theorem claim_C10 : ∀ (env : PipelineEnv) (e ui : String) (ms : Option String)
    (uid tid : Option Int),
    (process_issue env none ui ms uid tid).success = true ∧
    (process_issue env none ui ms uid tid).error_message =
      some (run_workflow env (initial_state ui ms uid tid)).error_message ∧
    (process_issue env (some e) ui ms uid tid).success = false ∧
    (process_issue env (some e) ui ms uid tid).final_recommendations = [] ∧
    (process_issue env (some e) ui ms uid tid).explanation = "Workflow failed: " ++ e := by
  intro env e ui ms uid tid
  exact ⟨rfl, rfl, rfl, rfl, rfl⟩

/-- The cascade always issues at least one store query (the primary one). -/
theorem cascade_calls_ne_nil (table : List KRow) (it : Option String) (alpha : ℚ) :
    (cascade table it alpha).2 ≠ [] := by
  unfold cascade
  split_ifs <;> simp

/-- C7, counterexample: for empty query text the claim asserts that
`find_similar_issues` returns an empty result set and never queries the
store with the zero vector; on this one-row store the call issues a store
query and returns a non-empty result, because the 1536-dimensional zero
vector is a non-empty list and the guard `if not query_embedding` does not
fire. -/
theorem claim_C7_cex :
    (find_similar_issues (fun _ => []) [sampleRow] "" none 5 (7/10) (13/20)).store_calls ≠ [] ∧
    (find_similar_issues (fun _ => []) [sampleRow] "" none 5 (7/10) (13/20)).results ≠ [] := by
  with_unfolding_all decide

/-- C7, amended: for empty query text the embedding step returns the all-zero
vector of dimensionality 1536 without calling the remote model, but
`find_similar_issues` does not then return early — its guard only fires when
the embedding list itself is empty, and the 1536-entry zero vector is
non-empty, so the store is queried (the full cascade runs) with the zero
vector as the match target. -/
theorem claim_C7 : ∀ (remote : String → List ℚ) (table : List KRow)
    (it : Option String) (limit : Nat) (alpha min_cutoff : ℚ),
    (generate_openai_embedding remote "").1 = List.replicate 1536 0 ∧
    (generate_openai_embedding remote "").2 = 0 ∧
    (find_similar_issues remote table "" it limit alpha min_cutoff).store_calls =
      (cascade table it alpha).2 ∧
    (find_similar_issues remote table "" it limit alpha min_cutoff).store_calls ≠ [] := by
  intro remote table it limit alpha min_cutoff
  have hemb : generate_openai_embedding remote "" = (List.replicate 1536 0, 0) := rfl
  have hne : ((generate_openai_embedding remote "").1).isEmpty = false := by
    rw [hemb]; rfl
  refine ⟨by rw [hemb], by rw [hemb], ?_, ?_⟩
  · simp only [find_similar_issues, hne, Bool.false_eq_true, if_false]
  · simp only [find_similar_issues, hne, Bool.false_eq_true, if_false]
    exact cascade_calls_ne_nil table it alpha

/-- C6: the confidence evaluator computes `case_similarity` and
`parts_confidence` as arithmetic means (0.0 on the respective empty list),
`overall_confidence = 0.4 * case_similarity + 0.6 * parts_confidence`, and
the quality label is `"high"` iff overall > 0.8, `"medium"` iff
0.6 < overall <= 0.8, `"low"` iff overall <= 0.6; in particular an overall
of exactly 0.8 is labelled `"medium"` and exactly 0.6 is labelled `"low"`
(witnessed by the two concrete boundary inputs in the last four conjuncts). -/
theorem claim_C6 : ∀ (cases : List KCase) (recs : List FormattedPart),
    (confidence_evaluate cases recs).case_similarity =
      (if cases.isEmpty then 0
       else (cases.map (fun c => c.similarity_score)).sum / cases.length) ∧
    (confidence_evaluate cases recs).parts_confidence =
      (if recs.isEmpty then 0
       else (recs.map (fun p => p.confidence)).sum / recs.length) ∧
    (confidence_evaluate cases recs).overall_confidence =
      2/5 * (confidence_evaluate cases recs).case_similarity +
        3/5 * (confidence_evaluate cases recs).parts_confidence ∧
    ((confidence_evaluate cases recs).quality = "high" ↔
      4/5 < (confidence_evaluate cases recs).overall_confidence) ∧
    ((confidence_evaluate cases recs).quality = "medium" ↔
      (3/5 < (confidence_evaluate cases recs).overall_confidence ∧
       (confidence_evaluate cases recs).overall_confidence ≤ 4/5)) ∧
    ((confidence_evaluate cases recs).quality = "low" ↔
      (confidence_evaluate cases recs).overall_confidence ≤ 3/5) ∧
    (confidence_evaluate [⟨"x", 1/2⟩] [⟨"p", 1, 1, "h"⟩]).overall_confidence = 4/5 ∧
    (confidence_evaluate [⟨"x", 1/2⟩] [⟨"p", 1, 1, "h"⟩]).quality = "medium" ∧
    (confidence_evaluate [⟨"x", 0⟩] [⟨"p", 1, 1, "h"⟩]).overall_confidence = 3/5 ∧
    (confidence_evaluate [⟨"x", 0⟩] [⟨"p", 1, 1, "h"⟩]).quality = "low" := by
  intro cases recs
  have hkey : ∀ o : ℚ,
      ((if 4/5 < o then "high" else if 3/5 < o then "medium" else "low") = "high" ↔
        4/5 < o) ∧
      ((if 4/5 < o then "high" else if 3/5 < o then "medium" else "low") = "medium" ↔
        (3/5 < o ∧ o ≤ 4/5)) ∧
      ((if 4/5 < o then "high" else if 3/5 < o then "medium" else "low") = "low" ↔
        o ≤ 3/5) := by
    intro o
    split_ifs with h1 h2 <;>
      refine ⟨?_, ?_, ?_⟩ <;> simp <;>
        first
          | linarith
          | (constructor <;> linarith)
          | (rintro ⟨a, b⟩; linarith)
          | (intro a; linarith)
  have hq : (confidence_evaluate cases recs).quality =
      (if 4/5 < (confidence_evaluate cases recs).overall_confidence then "high"
       else if 3/5 < (confidence_evaluate cases recs).overall_confidence then "medium"
       else "low") := rfl
  refine ⟨rfl, rfl, by simp only [confidence_evaluate]; ring, ?_, ?_, ?_, ?_, ?_, ?_, ?_⟩
  · rw [hq]; exact (hkey _).1
  · rw [hq]; exact (hkey _).2.1
  · rw [hq]; exact (hkey _).2.2
  · norm_num [confidence_evaluate]
  · norm_num [confidence_evaluate]
  · norm_num [confidence_evaluate]
  · norm_num [confidence_evaluate]

/-- C1: the fallback policy of `find_similar_issues` is exactly "issue the
attempts of the schedule in order, the first non-empty row set wins, no
blending": the cascade (result rows and issued-query instrumentation alike)
coincides with the spec-side `firstNonEmpty` evaluator over
`attemptSchedule`, and whenever the primary query (weight `alpha`, type
filter) returns at least one row, the only query issued is the primary one
and it supplies the result. -/
theorem claim_C1 : ∀ (table : List KRow) (it : Option String) (alpha : ℚ),
    cascade table it alpha =
      firstNonEmpty (fun q => run_query table it q.1 q.2) (attemptSchedule it alpha) ∧
    (run_query table it alpha true ≠ [] →
      (cascade table it alpha).2 = [(alpha, true)] ∧
      (cascade table it alpha).1 = run_query table it alpha true) := by
  intro table it alpha
  constructor
  · unfold cascade attemptSchedule
    cases h : optTruthy it <;>
      simp only [h, if_true, if_false, List.append_nil, List.nil_append,
        List.cons_append, List.append_assoc, Bool.false_eq_true] <;>
      simp only [firstNonEmpty] <;>
      split_ifs <;> simp_all [firstNonEmpty]
  · intro hne
    have h1 : (run_query table it alpha true).isEmpty = false := by
      cases hrq : run_query table it alpha true with
      | nil => exact absurd hrq hne
      | cons a l => rfl
    unfold cascade
    rw [h1]
    exact ⟨rfl, rfl⟩

/-- C1, witness: a store on which the primary query is non-empty; the
cascade issues exactly the single primary query and returns its rows. -/
theorem claim_C1_witness :
    (run_query [sampleRow] none (7/10) true ≠ []) ∧
    (cascade [sampleRow] none (7/10)).2 = [(7/10, true)] ∧
    (cascade [sampleRow] none (7/10)).1 = run_query [sampleRow] none (7/10) true := by
  have h : run_query [sampleRow] none (7/10) true ≠ [] := by
    with_unfolding_all decide
  exact ⟨h, ((claim_C1 [sampleRow] none (7/10)).2 h).1,
         ((claim_C1 [sampleRow] none (7/10)).2 h).2⟩

/-- Every `run_query` result is sorted by `similarity_score` descending. -/
theorem run_query_sorted (table : List KRow) (it : Option String)
    (a : ℚ) (wt : Bool) : (run_query table it a wt).Sorted caseGe := by
  unfold run_query
  exact (List.sorted_insertionSort caseGe _).sublist (List.take_sublist _ _)

/-- The row set the cascade settles on is sorted by score descending. -/
theorem cascade_sorted (table : List KRow) (it : Option String) (alpha : ℚ) :
    (cascade table it alpha).1.Sorted caseGe := by
  unfold cascade
  split_ifs <;> exact run_query_sorted ..

/-- C4: every `find_similar_issues` call returns at most `limit` cases, every
returned case has `similarity_score >= min_cutoff`, and the returned cases
are ordered by `similarity_score` descending. -/
theorem claim_C4 : ∀ (remote : String → List ℚ) (table : List KRow)
    (issue_text : String) (it : Option String) (limit : Nat)
    (alpha min_cutoff : ℚ),
    (find_similar_issues remote table issue_text it limit alpha min_cutoff).results.length
        ≤ limit ∧
    (find_similar_issues remote table issue_text it limit alpha min_cutoff).results.all
        (fun c => decide (min_cutoff ≤ c.similarity_score)) = true ∧
    (find_similar_issues remote table issue_text it limit alpha
        min_cutoff).results.Sorted caseGe := by
  intro remote table issue_text it limit alpha min_cutoff
  unfold find_similar_issues
  by_cases h : ((generate_openai_embedding remote issue_text).1).isEmpty = true
  · simp only [h, if_true]
    exact ⟨by simp, by simp, List.Pairwise.nil⟩
  · simp only [h, if_false]
    refine ⟨?_, ?_, ?_⟩
    · simpa using Nat.min_le_left limit _
    · rw [List.all_eq_true]
      intro c hc
      have := List.mem_of_mem_take hc
      rw [List.mem_filter] at this
      exact this.2
    · exact ((cascade_sorted table it alpha).sublist
        (List.filter_sublist _)).sublist (List.take_sublist _ _)

/-- Inserting an entry into a frequency list keeps every other entry of the
same frequency in place: the equal-frequency sublist gains the new entry at
its front exactly when the new entry has that frequency. -/
theorem filter_key_orderedInsert (a : String × Nat) (l : List (String × Nat)) (k : Nat) :
    (l.orderedInsert freqGe a).filter (fun e => e.2 == k) =
      if a.2 = k then a :: l.filter (fun e => e.2 == k)
      else l.filter (fun e => e.2 == k) := by
  induction l with
  | nil =>
    by_cases h : a.2 = k <;> simp [List.orderedInsert, h]
  | cons b t ih =>
    simp only [List.orderedInsert]
    by_cases hr : freqGe a b
    · rw [if_pos hr]
      by_cases ha : a.2 = k <;> simp [List.filter_cons, ha]
    · rw [if_neg hr]
      have hb2 : a.2 < b.2 := Nat.lt_of_not_le hr
      by_cases ha : a.2 = k
      · have hbk : (b.2 == k) = false := by
          simp only [beq_eq_false_iff_ne]
          omega
        simp [List.filter_cons, hbk, ih, ha]
      · simp [List.filter_cons, ih, ha]

/-- The stable descending insertion sort preserves the relative order of
equal-frequency entries: filtering either side by a frequency gives the same
list. -/
theorem filter_key_insertionSort (l : List (String × Nat)) (k : Nat) :
    (l.insertionSort freqGe).filter (fun e => e.2 == k) =
      l.filter (fun e => e.2 == k) := by
  induction l with
  | nil => rfl
  | cons a t ih =>
    simp only [List.insertionSort]
    rw [filter_key_orderedInsert]
    by_cases h : a.2 = k <;> simp [List.filter_cons, h, ih]

/-- C5: `extract_recommended_parts` on the empty list returns the empty
list; no result ever has more than 10 entries; results are sorted by
frequency descending; and among entries of equal frequency the output order
is a prefix of the first-seen (dict insertion) order of the part tokens. -/
theorem claim_C5 : extract_recommended_parts [] = [] ∧
    ∀ (cases : List KCase),
      (extract_recommended_parts cases).length ≤ 10 ∧
      (extract_recommended_parts cases).Sorted
        (fun a b => b.frequency ≤ a.frequency) ∧
      ∀ k : Nat,
        ((extract_recommended_parts cases).filter
            (fun r => r.frequency == k)).map (fun r => r.part_number) <+:
          ((parts_frequency cases).filter (fun e => e.2 == k)).map
            (fun e => e.1) := by
  refine ⟨rfl, ?_⟩
  intro cases
  refine ⟨?_, ?_, ?_⟩
  · show ((((parts_frequency cases).insertionSort freqGe).map
        (mkRecommendation cases.length)).take 10).length ≤ 10
    simpa using Nat.min_le_left 10 _
  · show ((((parts_frequency cases).insertionSort freqGe).map
        (mkRecommendation cases.length)).take 10).Pairwise _
    refine List.Pairwise.sublist (List.take_sublist _ _) ?_
    rw [List.pairwise_map]
    exact List.sorted_insertionSort freqGe _
  · intro k
    have key : ∀ (L : List (String × Nat)),
        ((L.map (mkRecommendation cases.length)).filter
            (fun r => r.frequency == k)).map (fun r => r.part_number) =
          (L.filter (fun e => e.2 == k)).map (fun e => e.1) := by
      intro L
      induction L with
      | nil => rfl
      | cons e t ih =>
        by_cases h : e.2 = k <;>
          simp [List.filter_cons, mkRecommendation, h, ih]
    have h0 : extract_recommended_parts cases =
        (((parts_frequency cases).insertionSort freqGe).map
          (mkRecommendation cases.length)).take 10 := rfl
    rw [h0]
    calc (((((parts_frequency cases).insertionSort freqGe).map
            (mkRecommendation cases.length)).take 10).filter
              (fun r => r.frequency == k)).map (fun r => r.part_number)
        <+: ((((parts_frequency cases).insertionSort freqGe).map
            (mkRecommendation cases.length)).filter
              (fun r => r.frequency == k)).map (fun r => r.part_number) :=
          ((List.take_prefix _ _).filter _).map _
      _ = (((parts_frequency cases).insertionSort freqGe).filter
            (fun e => e.2 == k)).map (fun e => e.1) := key _
      _ = ((parts_frequency cases).filter (fun e => e.2 == k)).map
            (fun e => e.1) := by rw [filter_key_insertionSort]

/-- `bump` increments exactly the bumped key's frequency. -/
theorem getFreq_bump (m : List (String × Nat)) (t p : String) :
    getFreq (bump m t) p = if t = p then getFreq m p + 1 else getFreq m p := by
  induction m with
  | nil => by_cases h : t = p <;> simp [bump, getFreq, h]
  | cons e rest ih =>
    obtain ⟨q, n⟩ := e
    by_cases hq : q = t
    · subst hq
      by_cases hp : q = p
      · subst hp; simp [bump, getFreq]
      · simp [bump, getFreq, hp]
    · by_cases hp : q = p
      · subst hp
        have ht : ¬ t = q := fun hh => hq hh.symm
        simp [bump, hq, getFreq, ht]
      · simp [bump, hq, getFreq, hp, ih]

/-- Folding a token list through `bump` adds each token's occurrence count. -/
theorem getFreq_foldl_bump (ts : List String) (m : List (String × Nat)) (p : String) :
    getFreq (ts.foldl bump m) p = getFreq m p + ts.count p := by
  induction ts generalizing m with
  | nil => simp
  | cons t ts ih =>
    simp only [List.foldl_cons, ih, getFreq_bump, List.count_cons]
    by_cases h : t = p
    · subst h
      simp only [beq_self_eq_true, if_true, if_pos rfl]
      omega
    · have hb : (p == t) = false := beq_eq_false_iff_ne.mpr (fun hh => h hh.symm)
      have hb2 : (t == p) = false := beq_eq_false_iff_ne.mpr h
      simp only [hb, hb2, if_neg h, Bool.false_eq_true, if_false]
      omega

/-- Membership in the key list after a `bump`. -/
theorem mem_keys_bump (m : List (String × Nat)) (t x : String) :
    x ∈ (bump m t).map Prod.fst ↔ x ∈ m.map Prod.fst ∨ x = t := by
  induction m with
  | nil => simp [bump]
  | cons e rest ih =>
    obtain ⟨q, n⟩ := e
    by_cases hq : q = t
    · subst hq
      simp [bump]
      tauto
    · simp [bump, hq, ih]
      tauto

/-- `bump` keeps the key list duplicate-free. -/
theorem keysNodup_bump (m : List (String × Nat)) (t : String)
    (h : (m.map Prod.fst).Nodup) : ((bump m t).map Prod.fst).Nodup := by
  induction m with
  | nil => simp [bump]
  | cons e rest ih =>
    obtain ⟨q, n⟩ := e
    rw [List.map_cons, List.nodup_cons] at h
    by_cases hq : q = t
    · subst hq
      have hb : bump ((q, n) :: rest) q = (q, n + 1) :: rest := by simp [bump]
      rw [hb, List.map_cons, List.nodup_cons]
      exact ⟨h.1, h.2⟩
    · simp only [bump, if_neg hq, List.map_cons, List.nodup_cons]
      refine ⟨?_, ih h.2⟩
      rw [mem_keys_bump]
      rintro (hc | hc)
      · exact h.1 hc
      · exact hq hc

/-- Folding tokens through `bump` keeps the key list duplicate-free. -/
theorem keysNodup_foldl_bump (ts : List String) (m : List (String × Nat))
    (h : (m.map Prod.fst).Nodup) : ((ts.foldl bump m).map Prod.fst).Nodup := by
  induction ts generalizing m with
  | nil => exact h
  | cons t ts ih => exact ih _ (keysNodup_bump m t h)

/-- On duplicate-free keys, membership determines the looked-up frequency. -/
theorem getFreq_of_mem (m : List (String × Nat)) (p : String) (n : Nat)
    (hnd : (m.map Prod.fst).Nodup) (h : (p, n) ∈ m) : getFreq m p = n := by
  induction m with
  | nil => cases h
  | cons e rest ih =>
    obtain ⟨q, k⟩ := e
    rw [List.map_cons, List.nodup_cons] at hnd
    rcases List.mem_cons.mp h with heq | hmem
    · cases heq
      simp [getFreq]
    · have hq : q ≠ p := by
        rintro rfl
        exact hnd.1 (List.mem_map.mpr ⟨(q, n), hmem, rfl⟩)
      simp [getFreq, hq, ih hnd.2 hmem]

/-- `parts_frequency` is the fold of `bump` over the concatenated tokens. -/
theorem parts_frequency_eq_foldl (cases : List KCase) :
    parts_frequency cases = (allTokens cases).foldl bump [] := by
  suffices h : ∀ (l : List KCase) (m : List (String × Nat)),
      l.foldl (fun m c => (caseTokens c.partname).foldl bump m) m =
        (l.flatMap fun c => caseTokens c.partname).foldl bump m from h cases []
  intro l
  induction l with
  | nil => intro m; rfl
  | cons c t ih =>
    intro m
    rw [List.foldl_cons, List.flatMap_cons, List.foldl_append, ih]

/-- When no case repeats a token within its own parts field, no token occurs
more often than the number of cases. -/
theorem count_allTokens_le (cases : List KCase) (p : String)
    (h : ∀ c ∈ cases, (caseTokens c.partname).Nodup) :
    (allTokens cases).count p ≤ cases.length := by
  induction cases with
  | nil => simp [allTokens]
  | cons c t ih =>
    have h1 : (caseTokens c.partname).count p ≤ 1 :=
      List.nodup_iff_count_le_one.mp (h c (List.mem_cons_self _ _)) p
    have h2 := ih (fun d hd => h d (List.mem_cons_of_mem _ hd))
    simp only [allTokens, List.flatMap_cons, List.count_append, List.length_cons] at h2 ⊢
    omega

/-- Round-half-even of a nonnegative rational is nonnegative. -/
theorem roundHalfEven_nonneg (q : ℚ) (h : 0 ≤ q) : 0 ≤ roundHalfEven q := by
  unfold roundHalfEven
  have hf : (0 : ℤ) ≤ ⌊q⌋ := Int.floor_nonneg.mpr h
  split_ifs <;> omega

/-- Round-half-even never climbs above an integer upper bound. -/
theorem roundHalfEven_le (q : ℚ) (k : ℤ) (h : q ≤ k) : roundHalfEven q ≤ k := by
  unfold roundHalfEven
  have hf : ⌊q⌋ ≤ k := by simpa using Int.floor_le_floor h
  have hfq : (⌊q⌋ : ℚ) ≤ q := Int.floor_le q
  split_ifs with h1 h2 h3
  · exact hf
  · have hlt : (⌊q⌋ : ℚ) < (k : ℚ) := by
      push_cast at h2 ⊢
      linarith
    have : ⌊q⌋ < k := by exact_mod_cast hlt
    omega
  · exact hf
  · have hr : q - ⌊q⌋ = 1/2 := le_antisymm (not_lt.mp h2) (not_lt.mp h1)
    have hlt : (⌊q⌋ : ℚ) < (k : ℚ) := by linarith
    have : ⌊q⌋ < k := by exact_mod_cast hlt
    omega

/-- `round(x, 3)` of a nonnegative value is nonnegative. -/
theorem round3_nonneg (q : ℚ) (h : 0 ≤ q) : 0 ≤ round3 q := by
  unfold round3
  have h1 : (0 : ℤ) ≤ roundHalfEven (q * 1000) :=
    roundHalfEven_nonneg _ (by positivity)
  have h2 : (0 : ℚ) ≤ (roundHalfEven (q * 1000) : ℚ) := by exact_mod_cast h1
  positivity

/-- `round(x, 3)` of a value at most 1 is at most 1. -/
theorem round3_le_one (q : ℚ) (h : q ≤ 1) : round3 q ≤ 1 := by
  unfold round3
  have h1 : q * 1000 ≤ ((1000 : ℤ) : ℚ) := by push_cast; linarith
  have h2 := roundHalfEven_le (q * 1000) 1000 h1
  rw [div_le_one (by norm_num)]
  exact_mod_cast h2

/-- C3, counterexample: the claim asserts every returned confidence lies in
[0, 1]; a single case whose parts field repeats a token (`"A, A"`) yields
frequency 2 over 1 total case, hence confidence 2.0 > 1 — token occurrences
are counted per occurrence, not per case. -/
theorem claim_C3_cex :
    (extract_recommended_parts [⟨"A, A", 1⟩]).map (fun r => r.confidence) = [2] ∧
    ¬ ((2 : ℚ) ≤ 1) := by
  with_unfolding_all decide

/-- C3, amended: every returned recommendation's confidence equals
`round(frequency / total_cases if total_cases else 0, 3)` and is
nonnegative; it lies in [0, 1] whenever no case's parts field contains a
repeated token (without that proviso it can exceed 1, since within-case
duplicate tokens each count toward the frequency). -/
theorem claim_C3 : ∀ (cases : List KCase) (r : PartRecommendation),
    r ∈ extract_recommended_parts cases →
    (r.confidence =
        round3 (if cases.length = 0 then 0 else (r.frequency : ℚ) / cases.length) ∧
      0 ≤ r.confidence ∧
      ((∀ c ∈ cases, (caseTokens c.partname).Nodup) → r.confidence ≤ 1)) := by
  intro cases r hr
  have h0 : extract_recommended_parts cases =
      (((parts_frequency cases).insertionSort freqGe).map
        (mkRecommendation cases.length)).take 10 := rfl
  rw [h0] at hr
  have hr1 : r ∈ ((parts_frequency cases).insertionSort freqGe).map
      (mkRecommendation cases.length) := List.mem_of_mem_take hr
  obtain ⟨e, he, rfl⟩ := List.mem_map.mp hr1
  have hmem : e ∈ parts_frequency cases := (List.perm_insertionSort freqGe _).subset he
  refine ⟨rfl, ?_, ?_⟩
  · apply round3_nonneg
    split_ifs
    · exact le_refl 0
    · positivity
  · intro hnd
    by_cases hz : cases.length = 0
    · show round3 (if cases.length = 0 then 0 else ((e.2 : ℚ)) / cases.length) ≤ 1
      rw [if_pos hz]
      exact round3_le_one 0 (by norm_num)
    · show round3 (if cases.length = 0 then 0 else ((e.2 : ℚ)) / cases.length) ≤ 1
      rw [if_neg hz]
      apply round3_le_one
      have hle : e.2 ≤ cases.length := by
        have hnd_keys : ((parts_frequency cases).map Prod.fst).Nodup := by
          rw [parts_frequency_eq_foldl]
          exact keysNodup_foldl_bump _ _ (by simp)
        have hv : getFreq (parts_frequency cases) e.1 = e.2 :=
          getFreq_of_mem _ _ _ hnd_keys (by simpa using hmem)
        have hcount : getFreq (parts_frequency cases) e.1 =
            (allTokens cases).count e.1 := by
          rw [parts_frequency_eq_foldl, getFreq_foldl_bump]
          simp [getFreq]
        have hbound := count_allTokens_le cases e.1 hnd
        omega
      rw [div_le_one (by exact_mod_cast Nat.pos_of_ne_zero hz)]
      exact_mod_cast hle

/-- C3, witness: on a concrete single-case input the amended theorem applies
with all hypotheses discharged. -/
theorem claim_C3_witness :
    ((⟨"7J065-85200", 1, 1, "1/1 similar cases"⟩ : PartRecommendation) ∈
        extract_recommended_parts [⟨"7J065-85200", 9/10⟩]) ∧
    (∀ c ∈ [(⟨"7J065-85200", 9/10⟩ : KCase)], (caseTokens c.partname).Nodup) ∧
    ((⟨"7J065-85200", 1, 1, "1/1 similar cases"⟩ : PartRecommendation).confidence =
        round3 (if ([(⟨"7J065-85200", 9/10⟩ : KCase)]).length = 0 then 0
          else (((⟨"7J065-85200", 1, 1, "1/1 similar cases"⟩ :
            PartRecommendation).frequency : ℚ) /
              ([(⟨"7J065-85200", 9/10⟩ : KCase)]).length)) ∧
      0 ≤ (⟨"7J065-85200", 1, 1, "1/1 similar cases"⟩ : PartRecommendation).confidence ∧
      (⟨"7J065-85200", 1, 1, "1/1 similar cases"⟩ : PartRecommendation).confidence ≤ 1) := by
  have hmem : (⟨"7J065-85200", 1, 1, "1/1 similar cases"⟩ : PartRecommendation) ∈
      extract_recommended_parts [⟨"7J065-85200", 9/10⟩] := by
    with_unfolding_all decide
  have hnd : ∀ c ∈ [(⟨"7J065-85200", 9/10⟩ : KCase)], (caseTokens c.partname).Nodup := by
    with_unfolding_all decide
  have h := claim_C3 [⟨"7J065-85200", 9/10⟩] _ hmem
  exact ⟨hmem, hnd, h.1, h.2.1, h.2.2 hnd⟩

/-- C8: a single failing stage is caught by that stage's handler, which
records the error string on the shared state (stages 1–4 and 7 in
`error_message`, stages 5 and 6 inside their own status entry), substitutes
the safe default (the original issue text as processed symptoms, a null
embedding, an empty similar-case list, an empty recommended-parts list
respectively), and the remaining stages still run — witnessed by the final
`workflow_stage = "completed"` set by the last stage; a stage-7 failure is
likewise caught and the workflow still returns its state. -/
theorem claim_C8 : ∀ (tech : List TechSymptom) (v : List ℚ) (cs fcs : List KCase)
    (e ui : String) (ms : Option String) (uid tid : Option Int),
    ((run_workflow { envOk tech v cs fcs with symptoms_out := .error e }
        (initial_state ui ms uid tid)).processed_symptoms = [ui] ∧
      (run_workflow { envOk tech v cs fcs with symptoms_out := .error e }
        (initial_state ui ms uid tid)).error_message =
          some ("Symptom analysis failed: " ++ e) ∧
      (run_workflow { envOk tech v cs fcs with symptoms_out := .error e }
        (initial_state ui ms uid tid)).workflow_stage = "completed") ∧
    ((run_workflow { envOk tech v cs fcs with embed_out := .error e }
        (initial_state ui ms uid tid)).embedding_vector = none ∧
      (run_workflow { envOk tech v cs fcs with embed_out := .error e }
        (initial_state ui ms uid tid)).error_message =
          some ("Embedding generation failed: " ++ e) ∧
      (run_workflow { envOk tech v cs fcs with embed_out := .error e }
        (initial_state ui ms uid tid)).workflow_stage = "completed") ∧
    ((run_workflow { envOk tech v cs fcs with
          search_out := .error e, fallback_search_out := .error e }
        (initial_state ui ms uid tid)).similar_cases = [] ∧
      (run_workflow { envOk tech v cs fcs with
          search_out := .error e, fallback_search_out := .error e }
        (initial_state ui ms uid tid)).error_message =
          some ("Similarity search failed: " ++ e) ∧
      (run_workflow { envOk tech v cs fcs with
          search_out := .error e, fallback_search_out := .error e }
        (initial_state ui ms uid tid)).workflow_stage = "completed") ∧
    ((run_workflow { envOk tech v cs fcs with parts_exc := some e }
        (initial_state ui ms uid tid)).recommended_parts = [] ∧
      (run_workflow { envOk tech v cs fcs with parts_exc := some e }
        (initial_state ui ms uid tid)).error_message =
          some ("Parts recommendation failed: " ++ e) ∧
      (run_workflow { envOk tech v cs fcs with parts_exc := some e }
        (initial_state ui ms uid tid)).workflow_stage = "completed") ∧
    ((run_workflow { envOk tech v cs fcs with inventory_exc := some e }
        (initial_state ui ms uid tid)).inventory_status = .err e ∧
      (run_workflow { envOk tech v cs fcs with inventory_exc := some e }
        (initial_state ui ms uid tid)).error_message = none ∧
      (run_workflow { envOk tech v cs fcs with inventory_exc := some e }
        (initial_state ui ms uid tid)).workflow_stage = "completed") ∧
    ((run_workflow { envOk tech v cs fcs with confidence_exc := some e }
        (initial_state ui ms uid tid)).confidence_scores = .err e ∧
      (run_workflow { envOk tech v cs fcs with confidence_exc := some e }
        (initial_state ui ms uid tid)).workflow_stage = "completed") ∧
    ((run_workflow { envOk tech v cs fcs with formatter_exc := some e }
        (initial_state ui ms uid tid)).error_message =
          some ("Formatting failed: " ++ e) ∧
      (run_workflow { envOk tech v cs fcs with formatter_exc := some e }
        (initial_state ui ms uid tid)).workflow_stage = "formatting") := by
  intro tech v cs fcs e ui ms uid tid
  refine ⟨⟨?_, ?_, ?_⟩, ⟨?_, ?_, ?_⟩, ⟨?_, ?_, ?_⟩, ⟨?_, ?_, ?_⟩,
    ⟨?_, ?_, ?_⟩, ⟨?_, ?_⟩, ⟨?_, ?_⟩⟩ <;>
    cases v <;> cases cs <;> cases fcs <;> rfl

/-- C9, counterexample: on a fully successful run (every oracle succeeds,
final `error_message` is none) the processing log has 14 entries — each of
the seven stages appends two — not 7 as the claim asserts. -/
theorem claim_C9_cex :
    (run_workflow demoEnv
      (initial_state "hydraulic issue" none none none)).processing_log.length = 14 ∧
    (run_workflow demoEnv
      (initial_state "hydraulic issue" none none none)).error_message = none ∧
    ¬ (14 : Nat) = 7 := by
  refine ⟨rfl, rfl, by decide⟩

/-- C9, amended: on a fully successful run each stage appends two log
entries, so the final processing log has length 14 (given a non-empty
embedding and a non-empty similar-case set; with an empty case set the
parts recommender skips its second entry), and the final error message is
none. -/
theorem claim_C9 : ∀ (tech : List TechSymptom) (v : List ℚ) (cs fcs : List KCase)
    (ui : String) (ms : Option String) (uid tid : Option Int),
    v ≠ [] → cs ≠ [] →
    (run_workflow (envOk tech v cs fcs)
      (initial_state ui ms uid tid)).processing_log.length = 14 ∧
    (run_workflow (envOk tech v cs fcs)
      (initial_state ui ms uid tid)).error_message = none := by
  intro tech v cs fcs ui ms uid tid hv hcs
  cases v with
  | nil => exact absurd rfl hv
  | cons a v' =>
    cases cs with
    | nil => exact absurd rfl hcs
    | cons c cs' => exact ⟨rfl, rfl⟩

/-- C9, witness: the amended theorem applied at concrete oracle values. -/
theorem claim_C9_witness :
    (([1] : List ℚ) ≠ [] ∧ ([(⟨"A", 1⟩ : KCase)] ≠ [])) ∧
    ((run_workflow (envOk [] [1] [⟨"A", 1⟩] [])
        (initial_state "x" none none none)).processing_log.length = 14 ∧
      (run_workflow (envOk [] [1] [⟨"A", 1⟩] [])
        (initial_state "x" none none none)).error_message = none) :=
  ⟨⟨List.cons_ne_nil _ _, List.cons_ne_nil _ _⟩,
    claim_C9 [] [1] [⟨"A", 1⟩] [] "x" none none none
      (List.cons_ne_nil _ _) (List.cons_ne_nil _ _)⟩
